import Mathlib

/-!
Shallow embedding of the Nidpo clinical-research data-capture front end:
the multi-step case-report-form wizard (answer state, visibility
conditions, section navigation, submission normalization), the 14-day
monitoring grid, the page router, and the CSV export.
-/

namespace Nidpo

/-- User roles, from the `UserProfile` type in the source
(`'admin' | 'researcher' | 'data-entry'`). -/
inductive Role where
  | admin
  | researcher
  | dataEntry
deriving DecidableEq

/-- A value stored in the wizard's `formData` mapping: text-like fields
store strings, checkbox fields store ordered lists of strings. -/
inductive Answer where
  | str (s : String)
  | list (l : List String)
deriving DecidableEq, BEq

/-- The in-progress `formData` object: an insertion-ordered mapping from
field identifier to answer, modelling a plain JS object. -/
abbrev FormAnswers := List (String × Answer)

/-- Property read `formData[fieldId]`: `none` models JS `undefined`. -/
def getAnswer (formData : FormAnswers) (fieldId : String) : Option Answer :=
  formData.lookup fieldId

/-- JS truthiness of a possibly-missing answer: `undefined` and the empty
string are falsy, non-empty strings and arrays are truthy. -/
def truthy : Option Answer → Bool
  | none => false
  | some (Answer.str s) => !(s == "")
  | some (Answer.list _) => true

/-- JS string coercion of an answer (arrays join with commas). -/
def answerToString : Answer → String
  | Answer.str s => s
  | Answer.list l => String.intercalate "," l

/-- `handleInputChange(fieldId, value)` from `AddPatientPage`:
`setFormData(prev => ({ ...prev, [fieldId]: value }))`.  A JS spread
update keeps the original key order and replaces in place when the key
exists, otherwise appends the key at the end. -/
def handleInputChange (formData : FormAnswers) (fieldId : String)
    (value : Answer) : FormAnswers :=
  if (formData.lookup fieldId).isSome then
    formData.map (fun p => if p.1 = fieldId then (fieldId, value) else p)
  else
    formData ++ [(fieldId, value)]

/-- The list update performed by `handleCheckboxChange`: when `checked`,
`[...currentValues, option]`; otherwise
`currentValues.filter(item => item !== option)`. -/
def toggleMultiChoice (currentValues : List String) (opt : String)
    (checked : Bool) : List String :=
  if checked then currentValues ++ [opt]
  else currentValues.filter (fun item => item != opt)

/-- `handleCheckboxChange(fieldId, option, checked)` from `AddPatientPage`:
reads `formData[fieldId] || []` and stores the toggled list back. -/
def handleCheckboxChange (formData : FormAnswers) (fieldId opt : String)
    (checked : Bool) : FormAnswers :=
  let currentValues := match getAnswer formData fieldId with
    | some (Answer.list l) => l
    | _ => []
  handleInputChange formData fieldId
    (Answer.list (toggleMultiChoice currentValues opt checked))

/-- `data.someField === 'v'` inside a schema condition closure. -/
def answerEq (formData : FormAnswers) (fieldId v : String) : Bool :=
  getAnswer formData fieldId == some (Answer.str v)

/-- JS `String.prototype.includes` (substring test). -/
def jsStrIncludes (s pat : String) : Bool :=
  pat == "" || (s.splitOn pat).length > 1

/-- JS `.includes` on an answer value: membership for arrays, substring
test for strings. -/
def jsIncludes : Answer → String → Bool
  | Answer.list l, v => l.contains v
  | Answer.str s, v => jsStrIncludes s v

/-- `data.someField?.includes('v')` inside a schema condition closure
(`undefined` short-circuits to falsy). -/
def answerIncludes (formData : FormAnswers) (fieldId v : String) : Bool :=
  match getAnswer formData fieldId with
  | some a => jsIncludes a v
  | none => false

/-- Field value kinds from the `FormField` TS type. -/
inductive FieldType where
  | text
  | number
  | radio
  | checkbox
  | monitoringTable
  | textarea
deriving DecidableEq

/-- One field of the declarative form schema (`FormField` in the source).
`subFields` and `gridColumns` are never populated by `formStructure` and
are omitted. -/
structure FormField where
  id : String
  label : String
  type : FieldType
  options : List String := []
  required : Bool := false
  helpText : Option String := none
  condition : Option (FormAnswers → Bool) := none

/-- One section of the form schema (`FormSection` in the source). -/
structure FormSection where
  title : String
  description : Option String := none
  fields : List FormField

/-- The static form schema `formStructure` from the source, sections in
declaration order.  Labels, options, required flags, help texts and
visibility condition closures are carried over verbatim. -/
def formStructure : List FormSection := [
  { title := "Demographic Data",
    fields := [
      { id := "centerId", label := "Center ID", type := FieldType.number, required := false },
      { id := "serialNumber", label := "Serial Number/Institutional Code", type := FieldType.text, required := true },
      { id := "age", label := "Age (years)", type := FieldType.number, required := true },
      { id := "hospitalName", label := "Hospital Name", type := FieldType.text, required := true },
      { id := "hospitalLocation", label := "Location of Hospital (State)", type := FieldType.text, required := true },
      { id := "geographicalZone", label := "Geographical Zone", type := FieldType.text, required := true },
      { id := "sex", label := "Sex", type := FieldType.radio, options := ["Male", "Female"], required := true },
      { id := "occupation", label := "Occupation", type := FieldType.radio, options := ["Civil servant", "Professional", "Trading", "Farming", "Retiree", "Others"], required := true },
      { id := "occupationOther", label := "If Others, specify occupation", type := FieldType.text, condition := some (fun data => answerEq data "occupation" "Others") },
      { id := "educationLevel", label := "Education Level", type := FieldType.radio, options := ["Nil", "Primary", "Secondary", "Tertiary", "Other"], required := true },
      { id := "educationLevelOther", label := "If Other, specify education level", type := FieldType.text, condition := some (fun data => answerEq data "educationLevel" "Other") },
      { id := "residentialArea", label := "Residential Area", type := FieldType.radio, options := ["Urban", "Semi-urban", "Rural"], required := true }
    ] },
  { title := "Diabetes History",
    fields := [
      { id := "diabetesType", label := "Type of diabetes", type := FieldType.radio, options := ["Type 1", "Type 2", "Other"], required := true },
      { id := "diabetesTypeOther", label := "If Other, specify type", type := FieldType.text, condition := some (fun data => answerEq data "diabetesType" "Other") },
      { id := "previousDiagnosis", label := "Previous diagnosis of diabetes", type := FieldType.radio, options := ["Yes", "No"], required := true },
      { id := "durationOfDiabetes", label := "If Yes, duration of diabetes (years)", type := FieldType.number, condition := some (fun data => answerEq data "previousDiagnosis" "Yes") },
      { id := "currentMedications", label := "Current medications", type := FieldType.checkbox, options := ["Oral hypoglycemics", "Insulin", "Others"], required := true },
      { id := "oralHypoglycemicAgents", label := "Oral hypoglycemic agents", type := FieldType.checkbox, options := ["Sulfonylureas", "TZD", "SGLUTI", "None"], required := true },
      { id := "medicationOther", label := "If Others medication, specify", type := FieldType.text, condition := some (fun data => answerIncludes data "currentMedications" "Others") },
      { id := "medicationAdherence", label := "Adherence to medication", type := FieldType.radio, options := ["Yes", "No"], required := true },
      { id := "previousAdmissions", label := "Previous hospital admissions for diabetes-related complications", type := FieldType.radio, options := ["Yes", "No"], required := true },
      { id := "previousAdmissionsCount", label := "If Yes, how many times?", type := FieldType.number, condition := some (fun data => answerEq data "previousAdmissions" "Yes") },
      { id := "lastAdmissionDate", label := "How long ago was the last admission?", type := FieldType.text, condition := some (fun data => answerEq data "previousAdmissions" "Yes") },
      { id := "hypertension", label := "Hypertension", type := FieldType.radio, options := ["Yes", "No"], required := true, helpText := some "Presence of comorbidities" },
      { id := "ckd", label := "CKD (Chronic Kidney Disease)", type := FieldType.radio, options := ["Yes", "No"], required := true },
      { id := "previousStroke", label := "Previous stroke", type := FieldType.radio, options := ["Yes", "No"], required := true },
      { id := "heartFailure", label := "Heart failure", type := FieldType.radio, options := ["Yes", "No"], required := true },
      { id := "otherComorbidities", label := "Other comorbidities (specify)", type := FieldType.text }
    ] },
  { title := "Admission Info",
    fields := [
      { id := "admissionDiagnosis", label := "Admission diagnosis", type := FieldType.checkbox, options := ["Infection", "DKA", "HHS", "Cardiovascular event", "Other"], required := true },
      { id := "admissionDiagnosisOther", label := "If Other, specify", type := FieldType.text, condition := some (fun data => answerIncludes data "admissionDiagnosis" "Other") },
      { id := "bloodPressure", label := "Blood Pressure (mmHg)", type := FieldType.text, required := true, helpText := some "Vital signs at admission" },
      { id := "pulseRate", label := "Pulse rate (/min)", type := FieldType.text, required := true },
      { id := "temperature", label := "Temperature (°C)", type := FieldType.text, required := true },
      { id := "respiratoryRate", label := "Respiratory rate (/min)", type := FieldType.text, required := true }
    ] },
  { title := "Lab Findings",
    fields := [
      { id := "glucoseMeasurementMethod", label := "How was the blood glucose measured?", type := FieldType.radio, options := ["Glucometer", "Laboratory", "Both"], required := true },
      { id := "bloodGlucoseAdmission", label := "Blood glucose levels at admission (mg/dL or mmol/L)", type := FieldType.text, required := true },
      { id := "hba1c", label := "HbA1c (%; if available)", type := FieldType.text },
      { id := "wbc", label := "WBC (total)", type := FieldType.text, required := true, helpText := some "Complete blood count" },
      { id := "neutrophil", label := "Neutrophil (%)", type := FieldType.text, required := true },
      { id := "lymphocytes", label := "Lymphocytes (%)", type := FieldType.text, required := true },
      { id := "pcv", label := "PCV (%)", type := FieldType.text, required := true },
      { id := "bloodCulture", label := "Blood culture", type := FieldType.radio, options := ["Yes", "No"], required := true },
      { id := "bloodCultureOrganism", label := "If Yes, isolated organism(s)", type := FieldType.text, condition := some (fun data => answerEq data "bloodCulture" "Yes") },
      { id := "bloodCultureSensitivity", label := "Antibiotic sensitivity", type := FieldType.text, condition := some (fun data => answerEq data "bloodCulture" "Yes") },
      { id := "bloodCultureResistance", label := "Antibiotic resistance", type := FieldType.text, condition := some (fun data => answerEq data "bloodCulture" "Yes") },
      { id := "sputumCulture", label := "Sputum culture (If available)", type := FieldType.radio, options := ["Yes", "No"], required := true },
      { id := "sputumCultureOrganism", label := "If Yes, isolated organism(s)", type := FieldType.text, condition := some (fun data => answerEq data "sputumCulture" "Yes") },
      { id := "sputumSensitivity", label := "Sputum antibiotic sensitivity", type := FieldType.text, condition := some (fun data => answerEq data "sputumCulture" "Yes") },
      { id := "sputumResistance", label := "Sputum antibiotic resistance", type := FieldType.text, condition := some (fun data => answerEq data "sputumCulture" "Yes") }
    ] },
  { title := "ECG & Renal",
    fields := [
      { id := "ecgHeartRate", label := "Heart Rate", type := FieldType.text, required := true, helpText := some "ECG" },
      { id := "ecgLvh", label := "LVH (Left Ventricular Hypertrophy)", type := FieldType.radio, options := ["Yes", "No"], required := true },
      { id := "ecgAcuteMI", label := "Features of Acute MI", type := FieldType.radio, options := ["Yes", "No"], required := true },
      { id := "ecgAcuteMIFeatures", label := "If Yes, list features", type := FieldType.text, condition := some (fun data => answerEq data "ecgAcuteMI" "Yes") },
      { id := "renalCreatinine", label := "Creatinine (micromol/L)", type := FieldType.text, required := true, helpText := some "Renal function tests" },
      { id := "renalUrea", label := "Urea (mg/dl)", type := FieldType.text, required := true },
      { id := "elSodium", label := "Sodium", type := FieldType.text, required := true, helpText := some "Electrolyte levels" },
      { id := "elPotassium", label := "Potassium", type := FieldType.text, required := true },
      { id := "elHco3", label := "HCO3", type := FieldType.text, required := true },
      { id := "elCl", label := "Cl", type := FieldType.text, required := true },
      { id := "urineGlucose", label := "Glucose in urine", type := FieldType.radio, options := ["Yes", "No"], required := true, helpText := some "Urinalysis" },
      { id := "urineKetone", label := "Ketone in urine", type := FieldType.radio, options := ["Yes", "No"], required := true },
      { id := "urineProtein", label := "Protein in urine", type := FieldType.radio, options := ["Yes", "No"], required := true },
      { id := "urineNitrites", label := "Nitrites in urine", type := FieldType.radio, options := ["Yes", "No"], required := true },
      { id := "urineCulture", label := "Urine culture", type := FieldType.radio, options := ["Yes", "No"], required := true },
      { id := "urineCultureOrganism", label := "If Yes, isolated organism(s)", type := FieldType.text, condition := some (fun data => answerEq data "urineCulture" "Yes") },
      { id := "urineSensitivity", label := "Urine antibiotic sensitivity", type := FieldType.text, condition := some (fun data => answerEq data "urineCulture" "Yes") },
      { id := "urineResistance", label := "Urine antibiotic resistance", type := FieldType.text, condition := some (fun data => answerEq data "urineCulture" "Yes") },
      { id := "lftAlt", label := "ALT", type := FieldType.radio, options := ["High", "Normal", "Low"], required := true, helpText := some "Liver function tests" },
      { id := "lftAst", label := "AST", type := FieldType.radio, options := ["High", "Normal", "Low"], required := true }
    ] },
  { title := "In-Hospital Monitoring",
    description := some "Capillary Blood Glucose Readings (Day 1 to Day 14)",
    fields := [
      { id := "glucoseMonitoring", label := "Daily Glucose Readings", type := FieldType.monitoringTable, required := true },
      { id := "hypoglycemiaEpisodes", label := "Episodes of hypoglycemia (<70 mg/dL)", type := FieldType.radio, options := ["Yes", "No"], required := true },
      { id := "hypoglycemiaCount", label := "Number of hypoglycemia episodes", type := FieldType.number, condition := some (fun data => answerEq data "hypoglycemiaEpisodes" "Yes") },
      { id := "hyperglycemiaEpisodes", label := "Episodes of hyperglycemia (>250 mg/dL)", type := FieldType.radio, options := ["Yes", "No"], required := true },
      { id := "hyperglycemiaCount", label := "Number of hyperglycemia episodes", type := FieldType.number, condition := some (fun data => answerEq data "hyperglycemiaEpisodes" "Yes") }
    ] },
  { title := "Complications & Interventions",
    fields := [
      { id := "complicationInfections", label := "Infections", type := FieldType.checkbox, options := ["Sepsis", "Pneumonia", "Urinary tract infections", "Other infections"], required := true, helpText := some "New-onset Complications" },
      { id := "complicationInfectionsOther", label := "If Other infections, specify", type := FieldType.text, condition := some (fun data => answerIncludes data "complicationInfections" "Other infections") },
      { id := "complicationAki", label := "Acute kidney injury", type := FieldType.radio, options := ["Yes", "No"], required := true },
      { id := "complicationCardio", label := "Cardiovascular events", type := FieldType.radio, options := ["Yes", "No"], required := true },
      { id := "complicationOther", label := "Other complications (specify)", type := FieldType.text },
      { id := "interventionInsulin", label := "Insulin therapy", type := FieldType.radio, options := ["Yes", "No"], required := true, helpText := some "Interventions" },
      { id := "interventionInsulinDoses", label := "Doses per day", type := FieldType.number, condition := some (fun data => answerEq data "interventionInsulin" "Yes") },
      { id := "interventionInsulinTypes", label := "Types of Insulin used", type := FieldType.checkbox, options := ["Rapidly acting insulin", "Soluble insulin", "Others"], condition := some (fun data => answerEq data "interventionInsulin" "Yes") },
      { id := "interventionInsulinTypesOther", label := "If Others, specify type", type := FieldType.text, condition := some (fun data => answerEq data "interventionInsulin" "Yes" && answerIncludes data "interventionInsulinTypes" "Others") },
      { id := "interventionInsulinAverageDose", label := "Average dose of insulin used/day", type := FieldType.text, condition := some (fun data => answerEq data "interventionInsulin" "Yes") },
      { id := "interventionInsulinMode", label := "Mode of insulin administration", type := FieldType.radio, options := ["Periodic administration", "Intravenous insulin infusion", "Others"], condition := some (fun data => answerEq data "interventionInsulin" "Yes") },
      { id := "interventionInsulinModeOther", label := "If Others, specify mode", type := FieldType.text, condition := some (fun data => answerEq data "interventionInsulin" "Yes" && answerEq data "interventionInsulinMode" "Others") },
      { id := "interventionAntibiotic", label := "Antibiotic therapy", type := FieldType.radio, options := ["Yes", "No"], required := true },
      { id := "interventionFluid", label := "Fluid management", type := FieldType.radio, options := ["Yes", "No"], required := true }
    ] },
  { title := "Discharge & Resources",
    fields := [
      { id := "dischargeStayLength", label := "Length of hospital stay (days)", type := FieldType.number, required := true, helpText := some "Discharge Information" },
      { id := "dischargeStatus", label := "Discharge status", type := FieldType.radio, options := ["Recovery", "Transfer", "Death"], required := true },
      { id := "dischargeDiagnosis", label := "Discharge diagnosis", type := FieldType.text, required := true },
      { id := "dischargeFollowUp", label := "Follow-up recommendations", type := FieldType.radio, options := ["Yes", "No"], required := true },
      { id := "dischargeCauseOfDeath", label := "If death, cause of death", type := FieldType.text, condition := some (fun data => answerEq data "dischargeStatus" "Death") },
      { id := "additionalTotalAdmitted", label := "Total number of patients admitted into medical wards within the study period", type := FieldType.number, required := true, helpText := some "Additional Information" },
      { id := "resourceEndocrinologist", label := "Endocrinologist", type := FieldType.radio, options := ["Yes", "No"], required := true, helpText := some "Resources Available in the Hospital" },
      { id := "resourceRegistrar", label := "Senior registrar in EDM", type := FieldType.radio, options := ["Yes", "No"], required := true },
      { id := "resourceDiabeticNurse", label := "Diabetic nurse", type := FieldType.radio, options := ["Yes", "No"], required := true },
      { id := "resourceOrthoSurgeon", label := "Orthopaedic surgeon", type := FieldType.radio, options := ["Yes", "No"], required := true },
      { id := "resourcePlasticSurgeon", label := "Plastic surgeon", type := FieldType.radio, options := ["Yes", "No"], required := true },
      { id := "resourcePodiatrist", label := "Podiatrist/orthotist", type := FieldType.radio, options := ["Yes", "No"], required := true },
      { id := "resourceNutritionist", label := "Nutritionist/dietician", type := FieldType.radio, options := ["Yes", "No"], required := true },
      { id := "resourceInfusionPump", label := "Infusion given pump", type := FieldType.radio, options := ["Yes", "No"], required := true },
      { id := "resourceInsulinPump", label := "Insulin infusion pump", type := FieldType.radio, options := ["Yes", "No"], required := true }
    ] },
  { title := "Cost Analysis",
    fields := [
      { id := "costPatientLocation", label := "Where is the patient managed?", type := FieldType.checkbox, options := ["Emergency Unit", "General Ward", "ICU/HDU", "Isolation Ward"], required := true },
      { id := "costBedDaysEU", label := "Bed-days: Emergency Unit", type := FieldType.number, required := true, helpText := some "Put 0 if not applicable" },
      { id := "costBedDaysGW", label := "Bed-days: General Ward", type := FieldType.number, required := true },
      { id := "costBedDaysICU", label := "Bed-days: ICU/HDU", type := FieldType.number, required := true },
      { id := "costBedDaysIW", label := "Bed-days: Isolation Ward", type := FieldType.number, required := true },
      { id := "costDiagFBC", label := "Diagnostics: FBC (quantity)", type := FieldType.number, required := true },
      { id := "costDiagUE", label := "Diagnostics: U + E / Creatinine (quantity)", type := FieldType.number, required := true },
      { id := "costDiagLFTs", label := "Diagnostics: LFTs (quantity)", type := FieldType.number, required := true },
      { id := "costDiagCRPESR", label := "Diagnostics: CRP / ESR (quantity)", type := FieldType.number, required := true },
      { id := "costDiagGlucose", label := "Diagnostics: Blood Glucose (quantity)", type := FieldType.number, required := true },
      { id := "costDiagBloodCulture", label := "Diagnostics: Blood Culture (quantity)", type := FieldType.number, required := true },
      { id := "costDiagWoundCulture", label := "Diagnostics: Wound Culture (quantity)", type := FieldType.number, required := true },
      { id := "costDiagABG", label := "Diagnostics: Arterial Blood Gases (ABG) (quantity)", type := FieldType.number, required := true },
      { id := "costDiagHbA1c", label := "Diagnostics: HbA1c (quantity)", type := FieldType.number, required := true },
      { id := "costDiagFLP", label := "Diagnostics: FLP (quantity)", type := FieldType.number, required := true },
      { id := "costDiagOthers", label := "Diagnostics: Others / Specify (quantity)", type := FieldType.number, required := true },
      { id := "costImagingCXR", label := "Imaging: CXR (quantity)", type := FieldType.number, required := true },
      { id := "costImagingDoppler", label := "Imaging: Doppler / Ultrasound (quantity)", type := FieldType.number, required := true },
      { id := "costImagingECG", label := "Imaging: ECG (quantity)", type := FieldType.number, required := true },
      { id := "costImagingEcho", label := "Imaging: Echocardiography (quantity)", type := FieldType.number, required := true },
      { id := "costImagingCTMRI", label := "Imaging: CT / MRI (quantity)", type := FieldType.number, required := true },
      { id := "costImagingXray", label := "Imaging: X-ray (quantity)", type := FieldType.number, required := true },
      { id := "costImagingOthers", label := "Imaging: Others (Specify) (quantity)", type := FieldType.number, required := true },
      { id := "costProcABI", label := "Procedures: ABI (quantity)", type := FieldType.number, required := true },
      { id := "costProcWound", label := "Procedures: Wound swab / debridement (quantity)", type := FieldType.number, required := true },
      { id := "costProcSurgery", label := "Procedures: Surgery (quantity)", type := FieldType.number, required := true },
      { id := "costMedsInsulin", label := "Medicine: Insulin (types)", type := FieldType.text, required := true },
      { id := "costMedsOral", label := "Medicine: Oral antidiabetic (if used)", type := FieldType.text, required := true },
      { id := "costMedsAntibiotics", label := "Medicine: Antibiotics (agents / days)", type := FieldType.text, required := true },
      { id := "costMedsIV", label := "Medicine: IV fluid", type := FieldType.text, required := true },
      { id := "costMedsAnticoagulants", label := "Medicine: Anticoagulants", type := FieldType.text, required := true },
      { id := "costMedsAnalgesics", label := "Medicine: Analgesics", type := FieldType.text, required := true },
      { id := "costMedsAntihypertensives", label := "Medicine: Antihypertensives", type := FieldType.text, required := true },
      { id := "costMedsOthers", label := "Medicine: Others (Specify)", type := FieldType.text, required := true },
      { id := "costConsumablesCatheter", label := "Consumables: Catheter (quantity)", type := FieldType.number, required := true },
      { id := "costConsumablesCannulas", label := "Consumables: Cannulas (quantity)", type := FieldType.number, required := true },
      { id := "costConsumablesDressing", label := "Consumables: Dressing (quantity)", type := FieldType.number, required := true },
      { id := "costConsumablesStrips", label := "Consumables: Glucose test strips (quantity)", type := FieldType.number, required := true },
      { id := "costConsumablesLancets", label := "Consumables: Lancets (quantity)", type := FieldType.number, required := true },
      { id := "costConsumablesSyringes", label := "Consumables: Syringes (quantity)", type := FieldType.number, required := true },
      { id := "costProfSpecialist", label := "Professional Services: Specialist Consults", type := FieldType.text, required := true },
      { id := "costProfNursing", label := "Professional Services: Nursing Procedures", type := FieldType.text, required := true },
      { id := "costProfPhysio", label := "Professional Services: Physiotherapy fee", type := FieldType.text, required := true },
      { id := "costProfDietetics", label := "Professional Services: Dietetics Consulting", type := FieldType.text, required := true },
      { id := "costHealthInsurance", label := "Do you have health insurance?", type := FieldType.radio, options := ["NHIA", "State Scheme", "Private", "None"], required := true },
      { id := "costNonMedIncome", label := "Monthly personal income (Naira ₦)", type := FieldType.number, required := true, helpText := some "Non-medical costs during admission" },
      { id := "costNonMedPatientTransport", label := "Patient transport to hospital (Naira ₦)", type := FieldType.number, required := true },
      { id := "costNonMedCaregiverTransport", label := "Caregiver transport (Naira ₦)", type := FieldType.number, required := true },
      { id := "costNonMedMeals", label := "Cost of meals for patient (Naira ₦)", type := FieldType.number, required := true },
      { id := "costNonMedMisc", label := "Miscellaneous (Naira ₦)", type := FieldType.number, required := true }
    ] }
]

/-- Field visibility, the guard at the top of `renderField`:
`if (field.condition && !field.condition(formData)) return null;` —
a field renders iff it has no condition or its condition holds. -/
def evaluateVisibility (field : FormField) (formData : FormAnswers) : Bool :=
  match field.condition with
  | some cond => cond formData
  | none => true

/-- All fields of the schema, in declaration order. -/
def allFields : List FormField :=
  (formStructure.map (fun sec => sec.fields)).flatten

/-- All field identifiers declared by the schema. -/
def allFieldIds : List String :=
  allFields.map (fun f => f.id)

/-- Look a field up by its identifier. -/
def findField (fieldId : String) : Option FormField :=
  allFields.find? (fun f => f.id == fieldId)

/-- JS `parseInt` with the default radix 10: skip leading whitespace,
read an optional sign and then a maximal run of decimal digits; `none`
models the `NaN` result when no digit is found. -/
def parseIntJS (s : String) : Option Int :=
  let cs := s.data.dropWhile (fun c =>
    c == ' ' || c == '\t' || c == '\n' || c == '\r')
  let signed : Int × List Char :=
    match cs with
    | '-' :: rest => (-1, rest)
    | '+' :: rest => (1, rest)
    | _ => (1, cs)
  let ds := signed.2.takeWhile Char.isDigit
  if ds.isEmpty then none
  else some (signed.1 * (ds.foldl (fun acc c => acc * 10 + (c.toNat - 48)) 0 : Nat))

/-- Profile of the authenticated user (`UserProfile` in the source);
`centerId` is `none` when the column is null, `centers` holds the joined
center name when present. -/
structure UserProfile where
  id : String
  name : String
  email : String
  role : Role
  centerId : Option Int
  centers : Option String
deriving DecidableEq

/-- The normalized `centerId` written on submission: a JS number (possibly
`NaN`) or `null` copied from a null profile center. -/
inductive CenterOut where
  | num (n : Int)
  | nan
  | null
deriving DecidableEq

/-- `parseInt` result as a stored center id (`none` means `NaN`). -/
def centerOutOfParse : Option Int → CenterOut
  | some n => CenterOut.num n
  | none => CenterOut.nan

/-- The current user's own profile center as a stored center id. -/
def ownCenterOut : Option Int → CenterOut
  | some n => CenterOut.num n
  | none => CenterOut.null

/-- The row inserted into `patients` by `handleSubmit`: the normalized
core fields spread together with the complete `formData` blob. -/
structure SubmissionPayload where
  patientId : Option Answer
  age : Option Answer
  sex : Option Answer
  centerId : CenterOut
  formData : FormAnswers

/-- The `centerId` expression inside `handleSubmit`:
`currentUser.role === 'admin' && formData.centerId ?
parseInt(formData.centerId) : currentUser.centerId`.  The `&&`-guard is
JS truthiness of `formData.centerId`, and `parseInt` first coerces its
argument to a string. -/
def submittedCenterId (currentUser : UserProfile) (formData : FormAnswers) :
    CenterOut :=
  if currentUser.role = Role.admin ∧ truthy (getAnswer formData "centerId") = true then
    match getAnswer formData "centerId" with
    | some v => centerOutOfParse (parseIntJS (answerToString v))
    | none => CenterOut.nan
  else ownCenterOut currentUser.centerId

/-- `handleSubmit` from `AddPatientPage` (the pure payload construction;
the network insert and notifications are outside the embedding):
`patientId = formData.serialNumber`, `age`/`sex` copied verbatim,
`centerId` as in `submittedCenterId`, and the whole `formData` attached
unmodified (`formData: formData` in the inserted row). -/
def handleSubmit (currentUser : UserProfile) (formData : FormAnswers) :
    SubmissionPayload :=
  { patientId := getAnswer formData "serialNumber"
    age := getAnswer formData "age"
    sex := getAnswer formData "sex"
    centerId := submittedCenterId currentUser formData
    formData := formData }

/-- Number of wizard sections (`formStructure.length`). -/
def numSections : Nat := formStructure.length

/-- `formStructure.length` as an integer, for the JS arithmetic below. -/
def numSectionsInt : Int := (numSections : Int)

/-- `nextStep`: `setCurrentStep(prev => Math.min(prev + 1, formStructure.length - 1))`. -/
def nextStep (prev : Int) : Int :=
  min (prev + 1) (numSectionsInt - 1)

/-- `prevStep`: `setCurrentStep(prev => Math.max(prev - 1, 0))`. -/
def prevStep (prev : Int) : Int :=
  max (prev - 1) 0

/-- An answer that is missing or blank. -/
def isEmptyAnswer : Option Answer → Bool
  | none => true
  | some (Answer.str s) => s == ""
  | some (Answer.list l) => l.isEmpty

/-- Modelled from the spec: the validation condition the spec attaches to
advancing — some field of the section is required, currently visible, and
its answer is empty.  The source contains no corresponding check; this
definition only states the spec-side predicate so the claim about
`nextStep` can be formulated. -/
def sectionHasEmptyRequiredVisibleField (sec : FormSection)
    (formData : FormAnswers) : Bool :=
  sec.fields.any (fun f =>
    f.required && evaluateVisibility f formData
      && isEmptyAnswer (getAnswer formData f.id))

/-- Day columns of the monitoring grid:
`Array.from({length: 14}, (_, i) => i + 1)`. -/
def monitoringDays : List Nat := (List.range 14).map (fun i => i + 1)

/-- Time-of-day rows of the monitoring grid. -/
def monitoringTimes : List String := ["Morning", "Afternoon", "Night"]

/-- JS `String.prototype.toLowerCase`, character by character (all labels
involved are ASCII). -/
def jsToLowerCase (s : String) : String :=
  String.mk (s.data.map Char.toLower)

/-- The synthesized identifier of one monitoring-grid cell, from
`MonitoringTable`: the template literal
`glucose_day${day}_${time.toLowerCase()}`. -/
def monitoringCellKey (day : Nat) (time : String) : String :=
  "glucose_day" ++ toString day ++ "_" ++ jsToLowerCase time

/-- Reading one monitoring-grid cell, from `MonitoringTable`:
`formData[key] || ''` — a missing or falsy stored value reads as the
empty string. -/
def readMonitoringCell (formData : FormAnswers) (day : Nat) (time : String) :
    Answer :=
  match getAnswer formData (monitoringCellKey day time) with
  | some v => if truthy (some v) then v else Answer.str ""
  | none => Answer.str ""

/-- Writing one monitoring-grid cell, from `MonitoringTable`: an ordinary
`handleInputChange` under the synthesized identifier. -/
def writeMonitoringCell (formData : FormAnswers) (day : Nat) (time : String)
    (value : String) : FormAnswers :=
  handleInputChange formData (monitoringCellKey day time) (Answer.str value)

/-- The views `renderPage` can produce. -/
inductive Page where
  | dashboard
  | patients
  | addPatient
  | users
  | centers
deriving DecidableEq

/-- `renderPage` from `App`: dispatch on the current page identifier with
role guards; `users` and `centers` fall back to the dashboard for
non-admin roles, `add_patient` falls back when the role is not one of
admin, data-entry, researcher, and unknown identifiers default to the
dashboard. -/
def renderPage (currentPage : String) (role : Role) : Page :=
  match currentPage with
  | "dashboard" => Page.dashboard
  | "patients" => Page.patients
  | "add_patient" =>
      if role = Role.admin ∨ role = Role.dataEntry ∨ role = Role.researcher
      then Page.addPatient else Page.dashboard
  | "users" => if role = Role.admin then Page.users else Page.dashboard
  | "centers" => if role = Role.admin then Page.centers else Page.dashboard
  | _ => Page.dashboard

/-- A patient row as fetched for `PatientsPage` (`Patient` in the source);
`centers` holds the joined center name when the join produced one. -/
structure Patient where
  id : Int
  patientId : String
  age : Int
  sex : String
  centerId : Int
  dateAdded : String
  centers : Option String
deriving DecidableEq

/-- Header row of the CSV export. -/
def csvHeaders : List String :=
  ["Patient ID", "Age", "Sex", "Center", "Date Added"]

/-- One data row of the CSV export, from `exportToCsv`:
`[p.patientId, p.age, p.sex, p.centers?.name || 'N/A', p.dateAdded]`
(the age, a number, is stringified when the row is joined). -/
def csvRow (p : Patient) : List String :=
  [p.patientId, toString p.age, p.sex,
    (match p.centers with
     | some n => if n == "" then "N/A" else n
     | none => "N/A"),
    p.dateAdded]

/-- The data rows of the CSV export: one `csvRow` per visible record. -/
def csvRows (patients : List Patient) : List (List String) :=
  patients.map csvRow

/-- The full CSV string built by `exportToCsv`:
`"data:text/csv;charset=utf-8," + headers.join(",") + "\n"
 + rows.map(e => e.join(",")).join("\n")`. -/
def exportToCsv (patients : List Patient) : String :=
  "data:text/csv;charset=utf-8," ++ String.intercalate "," csvHeaders ++ "\n"
    ++ String.intercalate "\n"
        ((csvRows patients).map (fun r => String.intercalate "," r))

/-! ## Helper lemmas about the normalized center id -/

theorem submittedCenterId_admin_present (u : UserProfile) (a : FormAnswers)
    (s : String) (hrole : u.role = Role.admin)
    (hv : getAnswer a "centerId" = some (Answer.str s)) (hs : s ≠ "") :
    submittedCenterId u a = centerOutOfParse (parseIntJS s) := by
  have ht : truthy (getAnswer a "centerId") = true := by
    rw [hv]
    simpa [truthy] using hs
  unfold submittedCenterId
  rw [if_pos ⟨hrole, ht⟩, hv]
  rfl

theorem submittedCenterId_not_admin (u : UserProfile) (a : FormAnswers)
    (hrole : u.role ≠ Role.admin) :
    submittedCenterId u a = ownCenterOut u.centerId := by
  unfold submittedCenterId
  rw [if_neg (fun hc => hrole hc.1)]

theorem submittedCenterId_admin_blank (u : UserProfile) (a : FormAnswers)
    (hv : getAnswer a "centerId" = none
      ∨ getAnswer a "centerId" = some (Answer.str "")) :
    submittedCenterId u a = ownCenterOut u.centerId := by
  have ht : truthy (getAnswer a "centerId") = false := by
    rcases hv with h | h <;> rw [h] <;> rfl
  unfold submittedCenterId
  rw [if_neg (fun hc => by rw [ht] at hc; exact Bool.false_ne_true hc.2)]

/-! ## Concrete fixtures used by witnesses and counterexamples -/

/-- An administrator profile whose own center is 1. -/
def adminProfile : UserProfile :=
  { id := "u1", name := "Alice", email := "alice@example.org",
    role := Role.admin, centerId := some 1, centers := some "Center One" }

/-- A data-entry profile whose own center is 3. -/
def dataEntryProfile : UserProfile :=
  { id := "u2", name := "Dan", email := "dan@example.org",
    role := Role.dataEntry, centerId := some 3, centers := some "Center Three" }

/-- Wizard answers with the serial-number field set to PT-001 and 7 typed
into the center-override field. -/
def wizardAnswers : FormAnswers :=
  [("serialNumber", Answer.str "PT-001"), ("centerId", Answer.str "7"),
   ("age", Answer.str "45"), ("sex", Answer.str "Male")]

/-- Wizard answers where occupation was switched to Trading after a value
had been typed into the conditional occupationOther field, leaving that
stale value in the answer map while its visibility condition is false. -/
def staleAnswers : FormAnswers :=
  [("occupation", Answer.str "Trading"),
   ("occupationOther", Answer.str "farmer"),
   ("serialNumber", Answer.str "PT-001")]

/-! ## C1 -/

/-- C1: the normalized centerId of a submission is the integer parse of
the center-override answer when the current user is an administrator and
a (non-blank) override answer is present, and otherwise — in particular
for every non-administrator, whatever is stored under the override key —
the current user's own profile center. -/
theorem c1_submission_centerId (u : UserProfile) (a : FormAnswers)
    (s : String) :
    (u.role = Role.admin → getAnswer a "centerId" = some (Answer.str s) →
      s ≠ "" → (handleSubmit u a).centerId = centerOutOfParse (parseIntJS s))
    ∧ (u.role ≠ Role.admin →
      (handleSubmit u a).centerId = ownCenterOut u.centerId) := by
  constructor
  · intro h1 h2 h3
    exact submittedCenterId_admin_present u a s h1 h2 h3
  · intro h1
    exact submittedCenterId_not_admin u a h1

/-- C1 witness: the administrator who typed 7 into the override field and
PT-001 into the serial-number field submits centerId 7 (not their own
center 1), while a data-entry user submitting the same answers gets their
own center 3. -/
theorem c1_witness :
    (handleSubmit adminProfile wizardAnswers).centerId = CenterOut.num 7
    ∧ (handleSubmit dataEntryProfile wizardAnswers).centerId = CenterOut.num 3
    ∧ (handleSubmit adminProfile wizardAnswers).patientId
        = some (Answer.str "PT-001") := by
  refine ⟨?_, ?_, rfl⟩
  · exact ((c1_submission_centerId adminProfile wizardAnswers "7").1
      rfl (by decide) (by decide)).trans (by decide)
  · exact ((c1_submission_centerId dataEntryProfile wizardAnswers "7").2
      (by decide)).trans (by decide)

/-! ## C10 -/

/-- C10: for an administrator, a center-override answer that is missing or
equal to the empty string is treated as absent (the submission falls back
to the administrator's own profile center), while any non-empty override
string counts as present and its integer parse — possibly NaN for a
non-numeric string — becomes the submitted centerId. -/
theorem c10_admin_override_presence (u : UserProfile) (a : FormAnswers)
    (hrole : u.role = Role.admin) :
    ((getAnswer a "centerId" = none
        ∨ getAnswer a "centerId" = some (Answer.str "")) →
      (handleSubmit u a).centerId = ownCenterOut u.centerId)
    ∧ (∀ s : String, s ≠ "" → getAnswer a "centerId" = some (Answer.str s) →
      (handleSubmit u a).centerId = centerOutOfParse (parseIntJS s)) := by
  constructor
  · intro hv
    exact submittedCenterId_admin_blank u a hv
  · intro s hs hv
    exact submittedCenterId_admin_present u a s hrole hv hs

/-- C10 witness: the administrator with own center 1 submits centerId 1
when the override is the empty string or missing, and NaN when the
override is the non-numeric string abc. -/
theorem c10_witness :
    (handleSubmit adminProfile [("centerId", Answer.str "")]).centerId
        = CenterOut.num 1
    ∧ (handleSubmit adminProfile []).centerId = CenterOut.num 1
    ∧ (handleSubmit adminProfile [("centerId", Answer.str "abc")]).centerId
        = CenterOut.nan := by
  refine ⟨?_, ?_, ?_⟩
  · exact ((c10_admin_override_presence adminProfile
      [("centerId", Answer.str "")] rfl).1 (Or.inr (by decide))).trans (by decide)
  · exact ((c10_admin_override_presence adminProfile [] rfl).1
      (Or.inl (by decide))).trans (by decide)
  · exact ((c10_admin_override_presence adminProfile
      [("centerId", Answer.str "abc")] rfl).2
      "abc" (by decide) (by decide)).trans (by decide)

/-! ## C2 -/

/-- C2 counterexample: the occupationOther field is invisible under the
stale answer map (occupation is Trading, not Others), yet its stored
value farmer is still present in the formData blob of the submission
payload — invisible fields are not excluded from what is sent. -/
theorem c2_counterexample :
    (findField "occupationOther").any
      (fun f => !(evaluateVisibility f staleAnswers)) = true
    ∧ getAnswer (handleSubmit dataEntryProfile staleAnswers).formData
        "occupationOther" = some (Answer.str "farmer") := by
  exact ⟨by decide, by decide⟩

/-- C2 amended: the submission payload attaches the complete FormAnswers
unchanged — fields whose visibility predicate is false are suppressed in
the UI but their stored values are still included in the submitted
formData. -/
theorem c2_amended_formData_complete (u : UserProfile) (a : FormAnswers) :
    (handleSubmit u a).formData = a := rfl

/-! ## C3 -/

/-- C3 counterexample: toggling A on in the list [A, B] does introduce a
duplicate — the result is [A, B, A], not the unchanged [A, B] the claim
requires. -/
theorem c3_counterexample :
    ¬toggleMultiChoice ["A", "B"] "A" true = ["A", "B"]
    ∧ toggleMultiChoice ["A", "B"] "A" true = ["A", "B", "A"]
    ∧ ¬(toggleMultiChoice ["A", "B"] "A" true).Nodup := by
  decide

/-- C3 amended: toggling an option on appends it at the end
unconditionally, so it introduces a duplicate exactly when the option was
already present (the checkbox UI only issues an add when the box was
unchecked); when the option is absent from a duplicate-free list the
result stays duplicate-free.  Toggling an option off removes every
occurrence of it and preserves the relative order of the remaining prior
entries (the result is a sublist of the input); removing B from [A, B]
yields [A]. -/
theorem c3_amended_toggle (l : List String) (opt : String) :
    toggleMultiChoice l opt true = l ++ [opt]
    ∧ (opt ∉ l → l.Nodup → (toggleMultiChoice l opt true).Nodup)
    ∧ toggleMultiChoice l opt false = l.filter (fun item => item != opt)
    ∧ opt ∉ toggleMultiChoice l opt false
    ∧ (toggleMultiChoice l opt false).Sublist l := by
  refine ⟨rfl, ?_, rfl, ?_, ?_⟩
  · intro hmem hnd
    simp [toggleMultiChoice, List.nodup_append]
    exact ⟨hnd, hmem⟩
  · simp [toggleMultiChoice]
  · exact List.filter_sublist l

/-- C3 witness: toggling C on in [A, B] keeps the list duplicate-free,
and toggling B off in [A, B] yields [A]. -/
theorem c3_witness :
    (toggleMultiChoice ["A", "B"] "C" true).Nodup
    ∧ toggleMultiChoice ["A", "B"] "B" false = ["A"] := by
  constructor
  · exact (c3_amended_toggle ["A", "B"] "C").2.1 (by decide) (by decide)
  · exact ((c3_amended_toggle ["A", "B"] "B").2.2.1).trans (by decide)

/-! ## C4 -/

/-- C4 counterexample: with the empty answer map, the first section has a
visible required field with an empty answer (for example serialNumber),
yet advancing is not blocked — nextStep moves from section 0 to
section 1. -/
theorem c4_counterexample :
    (formStructure.get? 0).any
      (fun sec => sectionHasEmptyRequiredVisibleField sec []) = true
    ∧ nextStep 0 = 1 := by
  exact ⟨by decide, by decide⟩

/-- C4 amended: advancing performs no required-field validation — from
any non-terminal section index, even when the current section has a
visible required field whose answer is empty, nextStep moves to the next
section.  The schema's required flags are not enforced by the wizard
navigation. -/
theorem c4_amended_advance_unvalidated (a : FormAnswers) (s : Int)
    (h0 : 0 ≤ s) (hlt : s < numSectionsInt - 1)
    (_hreq : (formStructure.get? s.toNat).any
      (fun sec => sectionHasEmptyRequiredVisibleField sec a) = true) :
    nextStep s = s + 1 := by
  have h9 : numSectionsInt = 9 := by decide
  unfold nextStep
  rw [h9] at hlt ⊢
  omega

/-- C4 witness: at section 0 with the empty answer map (which leaves the
required serialNumber field visible and empty), advancing still moves to
section 1. -/
theorem c4_witness : nextStep 0 = 0 + 1 :=
  c4_amended_advance_unvalidated [] 0 (by decide) (by decide) (by decide)

/-! ## C5 -/

/-- C5: the wizard's section index is confined to 0..N-1 where N is the
section count — advancing and retreating from any in-range index stay in
range, advancing at the last index is a no-op (no wraparound), and
retreating at index 0 is a no-op. -/
theorem c5_section_index_bounds (s : Int) (h0 : 0 ≤ s)
    (hN : s ≤ numSectionsInt - 1) :
    (0 ≤ nextStep s ∧ nextStep s ≤ numSectionsInt - 1)
    ∧ (0 ≤ prevStep s ∧ prevStep s ≤ numSectionsInt - 1)
    ∧ nextStep (numSectionsInt - 1) = numSectionsInt - 1
    ∧ prevStep 0 = 0 := by
  have h9 : numSectionsInt = 9 := by decide
  unfold nextStep prevStep
  rw [h9] at hN ⊢
  refine ⟨⟨?_, ?_⟩, ⟨?_, ?_⟩, ?_, ?_⟩ <;> omega

/-- C5 witness: the bounds at the concrete in-range index 3. -/
theorem c5_witness :
    (0 ≤ nextStep 3 ∧ nextStep 3 ≤ numSectionsInt - 1)
    ∧ (0 ≤ prevStep 3 ∧ prevStep 3 ≤ numSectionsInt - 1)
    ∧ nextStep (numSectionsInt - 1) = numSectionsInt - 1
    ∧ prevStep 0 = 0 :=
  c5_section_index_bounds 3 (by decide) (by decide)

/-! ## C6 -/

/-- C6 counterexample: the stored identifier of the day-3 Afternoon cell
is glucose_day3_afternoon, not the day3_afternoon the claim states — the
synthesized key carries a glucose_ prefix. -/
theorem c6_counterexample :
    monitoringCellKey 3 "Afternoon" ≠ "day3_afternoon"
    ∧ monitoringCellKey 3 "Afternoon" = "glucose_day3_afternoon" := by
  decide

/-- C6 amended: each monitoring-grid cell is stored under the synthesized
key glucose_day(N)_(timeOfDay) with the time-of-day label lower-cased, so
a label and its lower-cased form resolve to the same stored cell — in
particular day 3 Afternoon and day 3 afternoon — and no cell identifier
of the 14-day grid collides with any other field identifier declared in
the schema. -/
theorem c6_amended_cell_keys :
    (∀ day ∈ monitoringDays, ∀ t ∈ monitoringTimes,
      monitoringCellKey day t = monitoringCellKey day (jsToLowerCase t))
    ∧ monitoringCellKey 3 "Afternoon" = monitoringCellKey 3 "afternoon"
    ∧ (∀ day ∈ monitoringDays, ∀ t ∈ monitoringTimes,
      monitoringCellKey day t ∉ allFieldIds) := by
  refine ⟨by decide, by decide, by decide⟩

/-! ## C7 -/

/-- C7: reading a monitoring-grid cell whose synthesized identifier has
no entry in the answer map yields the empty string — never a missing
value — and writing a cell is an ordinary answer update
(handleInputChange, the setAnswer of the engine) under the synthesized
identifier. -/
theorem c7_missing_cell_reads_empty (a : FormAnswers) (day : Nat)
    (t : String) (h : getAnswer a (monitoringCellKey day t) = none) :
    readMonitoringCell a day t = Answer.str ""
    ∧ ∀ v : String, writeMonitoringCell a day t v
        = handleInputChange a (monitoringCellKey day t) (Answer.str v) := by
  constructor
  · unfold readMonitoringCell
    rw [h]
  · intro v
    rfl

/-- C7 witness: with only an age answer stored, the day-3 Morning cell
has no entry and reads as the empty string. -/
theorem c7_witness :
    readMonitoringCell [("age", Answer.str "45")] 3 "Morning"
      = Answer.str "" :=
  (c7_missing_cell_reads_empty [("age", Answer.str "45")] 3 "Morning"
    (by decide)).1

/-! ## C8 -/

/-- C8: for every role other than administrator, requesting the users
page or the centers page silently renders the dashboard view instead of
an error. -/
theorem c8_role_guard (role : Role) (h : role ≠ Role.admin) :
    renderPage "users" role = Page.dashboard
    ∧ renderPage "centers" role = Page.dashboard := by
  cases role with
  | admin => exact absurd rfl h
  | researcher => exact ⟨rfl, rfl⟩
  | dataEntry => exact ⟨rfl, rfl⟩

/-- C8 witness: a researcher requesting the users or centers page gets
the dashboard. -/
theorem c8_witness :
    renderPage "users" Role.researcher = Page.dashboard
    ∧ renderPage "centers" Role.researcher = Page.dashboard :=
  c8_role_guard Role.researcher (by decide)

/-! ## C9 -/

/-- C9: the CSV export produces exactly one row per visible patient
record, each row holding, in this fixed order, the patient identifier,
the age, the sex, the center name — or the literal placeholder N/A when
the center is absent — and the creation date. -/
theorem c9_export_rows (patients : List Patient) :
    (csvRows patients).length = patients.length
    ∧ ∀ p ∈ patients,
        (csvRow p).length = 5
        ∧ (csvRow p)[0]? = some p.patientId
        ∧ (csvRow p)[1]? = some (toString p.age)
        ∧ (csvRow p)[2]? = some p.sex
        ∧ (csvRow p)[4]? = some p.dateAdded
        ∧ (p.centers = none → (csvRow p)[3]? = some "N/A")
        ∧ (∀ n, p.centers = some n → n ≠ "" → (csvRow p)[3]? = some n) := by
  refine ⟨List.length_map patients csvRow, ?_⟩
  intro p _
  refine ⟨rfl, rfl, rfl, rfl, rfl, ?_, ?_⟩
  · intro hc
    unfold csvRow
    rw [hc]
    rfl
  · intro n hc hn
    unfold csvRow
    rw [hc]
    simp [hn]

/-- A patient record whose center join produced a name. -/
def patientWithCenter : Patient :=
  { id := 1, patientId := "PT-001", age := 45, sex := "Male", centerId := 1,
    dateAdded := "2024-01-01", centers := some "Center One" }

/-- A patient record with no center attached. -/
def patientNoCenter : Patient :=
  { id := 2, patientId := "PT-002", age := 60, sex := "Female", centerId := 2,
    dateAdded := "2024-01-02", centers := none }

/-- The visible records exported in the witness. -/
def exportPatients : List Patient := [patientWithCenter, patientNoCenter]

/-- C9 witness: exporting the two concrete records yields two rows, the
center column reads N/A for the record without a center and the center
name for the record with one. -/
theorem c9_witness :
    (csvRows exportPatients).length = exportPatients.length
    ∧ (csvRow patientNoCenter)[3]? = some "N/A"
    ∧ (csvRow patientWithCenter)[3]? = some "Center One" := by
  obtain ⟨h1, h2⟩ := c9_export_rows exportPatients
  refine ⟨h1, ?_, ?_⟩
  · exact (h2 patientNoCenter (by decide)).2.2.2.2.2.1 rfl
  · exact (h2 patientWithCenter (by decide)).2.2.2.2.2.2 "Center One"
      rfl (by decide)

end Nidpo
